import Mathlib

/-!
Verification of the foodsharing backend (Harvest Hub API).

Shallow embedding of the route handlers in `src/routes/auth.js`,
`src/routes/gardens.js`, the crops router (`src/unnamed/part_001`) and the
profile router (`src/unnamed/part_002`), together with models of the two
external collaborators the handlers call:

* the relational store accessed through the supabase query client
  (`src/supabase.js`): filter / select / insert / update / delete over rows,
  where a `.single()` query reports an error unless exactly one row matches
  (the behaviour of the actual client, which the code itself relies on in
  `GET /api/auth/me`, mapping that error to a 404);
* the token service (the jsonwebtoken library): signs and verifies tokens
  carrying id / email / name claims with a 7-day expiry and a shared secret,
  as described in the system overview of the specification.

Rows returned by the store are modelled dynamically, as association lists of
JSON values, for the auth / profile routes (whose properties are about the
shape of response payloads), and as typed records for the gardens / crops
routes (whose properties are about stored field values).
-/

/-- JSON values, as sent in request and response bodies and stored in rows. -/
inductive Json where
  | null : Json
  | bool (b : Bool) : Json
  | num (n : Int) : Json
  | str (s : String) : Json
  | arr (xs : List Json) : Json
  | obj (fields : List (String × Json)) : Json

mutual

/-- Structural boolean equality of JSON values. -/
def Json.beq : Json → Json → Bool
  | .null, .null => true
  | .bool a, .bool b => a == b
  | .num a, .num b => a == b
  | .str a, .str b => a == b
  | .arr xs, .arr ys => Json.beqL xs ys
  | .obj fs, .obj gs => Json.beqF fs gs
  | _, _ => false

def Json.beqL : List Json → List Json → Bool
  | [], [] => true
  | x :: xs, y :: ys => Json.beq x y && Json.beqL xs ys
  | _, _ => false

def Json.beqF : List (String × Json) → List (String × Json) → Bool
  | [], [] => true
  | (k, v) :: fs, (l, w) :: gs => k == l && Json.beq v w && Json.beqF fs gs
  | _, _ => false

end

mutual

theorem Json.eq_of_beq : ∀ {a b : Json}, Json.beq a b = true → a = b
  | .null, .null, _ => rfl
  | .bool _, .bool _, h => by simp [Json.beq] at h; simp [h]
  | .num _, .num _, h => by simp [Json.beq] at h; simp [h]
  | .str _, .str _, h => by simp [Json.beq] at h; simp [h]
  | .arr xs, .arr ys, h => by rw [Json.eqL_of_beqL (a := xs) (b := ys) h]
  | .obj fs, .obj gs, h => by rw [Json.eqF_of_beqF (a := fs) (b := gs) h]

theorem Json.eqL_of_beqL : ∀ {a b : List Json}, Json.beqL a b = true → a = b
  | [], [], _ => rfl
  | _ :: xs, _ :: ys, h => by
      simp only [Json.beqL, Bool.and_eq_true] at h
      rw [Json.eq_of_beq h.1, Json.eqL_of_beqL h.2]

theorem Json.eqF_of_beqF : ∀ {a b : List (String × Json)}, Json.beqF a b = true → a = b
  | [], [], _ => rfl
  | (_, v) :: fs, (_, _) :: _, h => by
      simp only [Json.beqF, Bool.and_eq_true, beq_iff_eq] at h
      rw [h.1.1, Json.eq_of_beq h.1.2, Json.eqF_of_beqF h.2]

end

mutual

theorem Json.beq_refl : ∀ (a : Json), Json.beq a a = true
  | .null => rfl
  | .bool _ => by simp [Json.beq]
  | .num _ => by simp [Json.beq]
  | .str _ => by simp [Json.beq]
  | .arr xs => Json.beqL_refl xs
  | .obj fs => Json.beqF_refl fs

theorem Json.beqL_refl : ∀ (a : List Json), Json.beqL a a = true
  | [] => rfl
  | x :: xs => by
      simp only [Json.beqL, Bool.and_eq_true]
      exact ⟨Json.beq_refl x, Json.beqL_refl xs⟩

theorem Json.beqF_refl : ∀ (a : List (String × Json)), Json.beqF a a = true
  | [] => rfl
  | (k, v) :: fs => by
      simp only [Json.beqF, Bool.and_eq_true, beq_self_eq_true, true_and]
      exact ⟨Json.beq_refl v, Json.beqF_refl fs⟩

end

instance : DecidableEq Json := fun a b =>
  if h : Json.beq a b = true then .isTrue (Json.eq_of_beq h)
  else .isFalse (fun he => h (he ▸ Json.beq_refl a))

/-- Truthiness of a JSON value under JavaScript coercion rules
(`null`, `false`, `0` and the empty string are falsy). -/
def Json.truthy : Json → Bool
  | .null => false
  | .bool b => b
  | .num n => n != 0
  | .str s => s != ""
  | .arr _ => true
  | .obj _ => true

/-- Truthiness of a possibly-undefined value (`none` models `undefined`). -/
def jsTruthy : Option Json → Bool
  | none => false
  | some v => v.truthy

/-- A leaf (scalar) JSON value: what a column of a relational row holds. -/
def Json.isLeaf : Json → Bool
  | .null => true
  | .bool _ => true
  | .num _ => true
  | .str _ => true
  | .arr _ => false
  | .obj _ => false

mutual

/-- All keys occurring in a JSON value, at any nesting depth. -/
def Json.keysRec : Json → List String
  | .obj fs => Json.keysF fs
  | .arr xs => Json.keysL xs
  | _ => []

def Json.keysF : List (String × Json) → List String
  | [] => []
  | (k, v) :: fs => k :: (Json.keysRec v ++ Json.keysF fs)

def Json.keysL : List Json → List String
  | [] => []
  | x :: xs => Json.keysRec x ++ Json.keysL xs

end

/-- A row as returned by the relational store: an association list from
column names to values. -/
abbrev DRow : Type := List (String × Json)

/-- A row is flat when every column holds a scalar value, as rows of a
relational store do. -/
def rowFlat (r : DRow) : Prop := ∀ p ∈ r, Json.isLeaf p.2 = true

instance : DecidablePred rowFlat := fun r => List.decidableBAll _ r

/-- JavaScript property access `row[k]` (`none` models `undefined`). -/
def jsGet (r : DRow) (k : String) : Option Json :=
  (r.find? (fun p => p.1 == k)).map (fun p => p.2)

/-- Object rest-destructuring `const \x7b password_hash, ...rest \x7d = row`:
every entry except the named key. -/
def stripKey (r : DRow) (k : String) : DRow :=
  r.filter (fun p => p.1 != k)

/-- The column projection a `.select("c1, c2, ...")` query applies to a row
before the store returns it. -/
def selectCols (cols : List String) (r : DRow) : DRow :=
  cols.filterMap (fun c => (jsGet r c).map (fun v => (c, v)))

/-- A `.single()` query: the store returns the matching row if exactly one
row matches the filters, and reports an error (`none`) otherwise. This is
the behaviour of the supabase client the code imports; the code itself
relies on it in GET /api/auth/me, where a missing user surfaces as a query
error that the handler maps to 404. -/
def singleQ {α : Type} (l : List α) (p : α → Bool) : Option α :=
  match l.filter p with
  | [r] => some r
  | _ => none

/-- JavaScript `header.split(" ")` on the underlying character list. -/
def splitChar (sep : Char) : List Char → List (List Char)
  | [] => [[]]
  | c :: cs =>
      if c = sep then [] :: splitChar sep cs
      else
        match splitChar sep cs with
        | r :: rs => (c :: r) :: rs
        | [] => [[c]]

/-- JavaScript `s.split(sep)` for a single-character separator. -/
def jsSplit (sep : Char) (s : String) : List String :=
  (splitChar sep s.data).map (fun cs => String.mk cs)

/-- JavaScript `s.startsWith(pre)`. -/
def strStartsWith (s pre : String) : Bool :=
  pre.data.isPrefixOf s.data

/-- JavaScript `header.split(" ")[1]`, with `""` standing for the undefined
result of an out-of-range index (both are falsy, which is all the handler
tests with `if (!token)`). -/
def headerToken (h : String) : String :=
  match jsSplit ' ' h with
  | _ :: t :: _ => t
  | _ => ""

/-! ## Token service (model of the jsonwebtoken collaborator)

The spec describes it as a service that signs and verifies compact signed
tokens carrying id / email / name claims with a 7-day expiry, using a shared
secret. A token is modelled as its claim set plus the secret it was signed
with; verification checks the secret and the expiry. Claim fields are
`Option Json` because a field read off a row object may be undefined. -/

structure TokenPayload where
  idClaim : Option Json
  emailClaim : Option Json
  nameClaim : Option Json
  iat : Nat
  exp : Nat
deriving DecidableEq

structure Token where
  payload : TokenPayload
  sig : String
deriving DecidableEq

/-- The `expiresIn: "7d"` option, in seconds. -/
def sevenDays : Nat := 7 * 24 * 60 * 60

/-- `jwt.sign({ id, email, name }, secret, { expiresIn: "7d" })`. -/
def jwtSign (secret : String) (idv emailv namev : Option Json) (now : Nat) : Token :=
  { payload := { idClaim := idv, emailClaim := emailv, nameClaim := namev,
                 iat := now, exp := now + sevenDays },
    sig := secret }

inductive JwtError where
  | invalid (msg : String)
  | expired
deriving DecidableEq

/-- `jwt.verify(token, secret)` on an already-decoded token: rejects a wrong
signature as a JsonWebTokenError and an elapsed expiry as a
TokenExpiredError, and otherwise returns the claim set. -/
def jwtVerify (secret : String) (t : Token) (now : Nat) : Except JwtError TokenPayload :=
  if t.sig ≠ secret then .error (.invalid "invalid signature")
  else if t.payload.exp ≤ now then .error .expired
  else .ok t.payload

/-- `jwt.verify` on a token string: a string that does not decode to any
token at all is a JsonWebTokenError as well. The decoding of compact token
strings is external, so it is a parameter. -/
def jwtVerifyStr (secret : String) (decode : String → Option Token) (now : Nat)
    (s : String) : Except JwtError TokenPayload :=
  match decode s with
  | none => .error (.invalid "jwt malformed")
  | some t => jwtVerify secret t now

/-! ## Auth routes (src/routes/auth.js) -/

/-- An HTTP response: status code and JSON body. -/
structure Response where
  status : Nat
  body : Json
deriving DecidableEq

/-- The row POST /api/auth/register inserts into the users table. -/
def registerRow (emailv : Json) (hashedPassword : String) (namev : Json)
    (phone : Option Json) (now : String) : DRow :=
  [("email", emailv),
   ("password_hash", .str hashedPassword),
   ("name", namev),
   ("phone", if jsTruthy phone then phone.getD .null else .null),
   ("created_at", .str now),
   ("updated_at", .str now)]

/-- POST /api/auth/register. `existingRes` is the store result of the
existing-account lookup by email (its error, if any, is ignored by the
code); `hashedPassword` is the bcrypt digest of the supplied password
(external); `insert` maps the inserted payload to the row data the store
returns for it (arbitrary, since the store fills in columns such as id). -/
def authRegister (secret : String) (encode : Token → String) (nowSec : Nat)
    (nowIso : String) (hashedPassword : String)
    (emailv password namev phone : Option Json)
    (existingRes : Option DRow) (insert : DRow → Option DRow) : Response :=
  if !jsTruthy emailv || !jsTruthy password || !jsTruthy namev then
    { status := 400, body := .obj [("error", .str "Email, password, and name are required")] }
  else
    match existingRes with
    | some _ =>
        { status := 400, body := .obj [("error", .str "User already exists")] }
    | none =>
        match insert (registerRow (emailv.getD .null) hashedPassword
            (namev.getD .null) phone nowIso) with
        | none =>
            { status := 500, body := .obj [("error", .str "Error creating user")] }
        | some user =>
            let token := jwtSign secret (jsGet user "id") (jsGet user "email")
              (jsGet user "name") nowSec
            { status := 201,
              body := .obj [("message", .str "User registered successfully"),
                            ("user", .obj (stripKey user "password_hash")),
                            ("token", .str (encode token))] }

/-- Result of POST /api/auth/login: the response, plus the token the handler
issued on success (the abstract form of the string embedded in the body). -/
structure LoginOut where
  resp : Response
  token : Option Token
deriving DecidableEq

/-- The 401 body both authentication-failure branches of login send. -/
def invalidCredBody : Json := .obj [("error", .str "Invalid credentials")]

/-- POST /api/auth/login. `userRes` is the store result of the user lookup
by email; `bcompare` is the bcrypt digest comparison (external), applied to
the supplied password and the password_hash column of the found row. -/
def authLogin (secret : String) (encode : Token → String) (nowSec : Nat)
    (emailv password : Option Json) (userRes : Option DRow)
    (bcompare : Json → Option Json → Bool) : LoginOut :=
  if !jsTruthy emailv || !jsTruthy password then
    { resp := { status := 400, body := .obj [("error", .str "Email and password are required")] },
      token := none }
  else
    match userRes with
    | none =>
        { resp := { status := 401, body := invalidCredBody }, token := none }
    | some user =>
        if !bcompare (password.getD .null) (jsGet user "password_hash") then
          { resp := { status := 401, body := invalidCredBody }, token := none }
        else
          let token := jwtSign secret (jsGet user "id") (jsGet user "email")
            (jsGet user "name") nowSec
          { resp := { status := 200,
                      body := .obj [("message", .str "Login successful"),
                                    ("user", .obj (stripKey user "password_hash")),
                                    ("token", .str (encode token))] },
            token := some token }

/-- The columns GET /api/auth/me selects from the users table. -/
def meCols : List String :=
  ["id", "email", "name", "phone", "created_at", "updated_at"]

def meBodyNoHeader : Json :=
  .obj [("success", .bool false), ("error", .str "Authorization header is required")]

def meBodyBadFormat : Json :=
  .obj [("success", .bool false),
        ("error", .str "Invalid authorization format. Use: Bearer <token>")]

def meBodyNoToken : Json :=
  .obj [("success", .bool false), ("error", .str "Token is required")]

def meBodyInvalid (msg : String) : Json :=
  .obj [("success", .bool false), ("error", .str "Invalid token"), ("details", .str msg)]

def meBodyExpired : Json :=
  .obj [("success", .bool false), ("error", .str "Token expired"),
        ("details", .str "Please login again")]

def meBodyUserMissing : Json :=
  .obj [("success", .bool false), ("error", .str "User not found in database")]

/-- GET /api/auth/me. `lookup` maps the id claim of the verified token to
the store result of the user query (the second 404 branch of the handler,
for a null row without an error, is unreachable: the store reports an error
whenever no row matches). -/
def authMe (secret : String) (decode : String → Option Token) (nowSec : Nat)
    (authHeader : Option String) (lookup : Option Json → Option DRow) : Response :=
  match authHeader with
  | none => { status := 401, body := meBodyNoHeader }
  | some h =>
      if !strStartsWith h "Bearer " then
        { status := 401, body := meBodyBadFormat }
      else
        let token := headerToken h
        if token = "" then
          { status := 401, body := meBodyNoToken }
        else
          match jwtVerifyStr secret decode nowSec token with
          | .error (.invalid m) => { status := 401, body := meBodyInvalid m }
          | .error .expired => { status := 401, body := meBodyExpired }
          | .ok decoded =>
              match lookup decoded.idClaim with
              | none => { status := 404, body := meBodyUserMissing }
              | some user =>
                  { status := 200,
                    body := .obj [("success", .bool true),
                                  ("user", .obj (selectCols meCols user))] }

/-! ## Profile routes (the profile router, src/unnamed/part_002)

Each store query result is a parameter (raw rows, to which the model applies
the column projection of the corresponding `.select(...)`), so the
properties below hold regardless of the row data the store returns. -/

def profileCols : List String :=
  ["id", "email", "name", "phone", "created_at", "profile_image_url", "bio",
   "location", "garden_name", "garden_size"]

def statCropCols : List String := ["id", "name", "status", "progress", "is_shared"]

def histCols : List String := ["id", "name", "image_url", "created_at"]

def gardenListCols : List String := ["id", "name", "type", "size", "location"]

def activeCropCols : List String := ["id", "name", "category", "status", "progress", "image_url"]

def imageCols : List String := ["id", "email", "name", "profile_image_url"]

/-- JavaScript strict equality `===` on possibly-undefined values. -/
def jsStrictEq (a b : Option Json) : Bool :=
  match a, b with
  | some x, some y => Json.beq x y
  | none, none => true
  | _, _ => false

/-- One term of the progress sum, `crop.progress || 0`. A non-numeric truthy
progress column would make the JavaScript sum a string concatenation; no
stated property depends on that case, and it is modelled as 0. -/
def progTerm (r : DRow) : Int :=
  match jsGet r "progress" with
  | some (.num n) => n
  | _ => 0

/-- `Math.round(sum / len)` for `len > 0`, on integers: the floor of
`sum / len + 1 / 2`. -/
def roundDiv (sum len : Int) : Int := Int.fdiv (2 * sum + len) (2 * len)

/-- The stats object GET /api/profile/:userId computes by scanning the crop
rows in process (`crops` is null when the crops query reported an error). -/
def profileStats (crops : Option (List DRow)) : Json :=
  let cs := crops.getD []
  let totalCrops : Int := cs.length
  let activeCrops : Int :=
    (cs.filter (fun r => !jsStrictEq (jsGet r "status") (some (.str "harvest")))).length
  let sharedCrops : Int :=
    (cs.filter (fun r => jsTruthy (jsGet r "is_shared"))).length
  let avgProgress : Int :=
    if cs.length = 0 then 0
    else roundDiv (cs.foldl (fun s r => s + progTerm r) 0) cs.length
  .obj [("totalCrops", .num totalCrops), ("activeCrops", .num activeCrops),
        ("sharedCrops", .num sharedCrops), ("avgProgress", .num avgProgress)]

/-- GET /api/profile/:userId. -/
def profileGetById (userRes : Option DRow) (cropsRes : Option (List DRow))
    (histRes : Option (List DRow)) : Response :=
  match userRes with
  | none =>
      { status := 404, body := .obj [("success", .bool false), ("error", .str "User not found")] }
  | some u =>
      let stats := profileStats (cropsRes.map (List.map (selectCols statCropCols)))
      { status := 200,
        body := .obj [("success", .bool true),
          ("profile", .obj (selectCols profileCols u ++
            [("stats", stats),
             ("sharingHistory",
              .arr ((histRes.getD []).map (fun r => .obj (selectCols histCols r))))]))] }

/-- GET /api/profile/ (current user). The three impact metrics are random
numbers in the code; they are parameters here. -/
def profileGetCurrent (userRes : Option DRow) (gardensRes : Option (List DRow))
    (cropsRes : Option (List DRow)) (histRes : Option (List DRow))
    (sharedKg helpedCount savedCO2 : Int) : Response :=
  match userRes with
  | none =>
      { status := 404, body := .obj [("success", .bool false), ("error", .str "User not found")] }
  | some u =>
      { status := 200,
        body := .obj [("success", .bool true),
          ("profile", .obj (selectCols profileCols u ++
            [("impact", .obj [("sharedKg", .num sharedKg),
                              ("helpedCount", .num helpedCount),
                              ("savedCO2", .num savedCO2)]),
             ("gardens",
              .arr ((gardensRes.getD []).map (fun r => .obj (selectCols gardenListCols r)))),
             ("activeCrops",
              .arr ((cropsRes.getD []).map (fun r => .obj (selectCols activeCropCols r)))),
             ("sharingHistory",
              .arr ((histRes.getD []).map (fun r => .obj (selectCols histCols r))))]))] }

/-- The update payload PUT /api/profile/ builds from the request body:
updated_at always, name only when truthy, the other fields whenever they are
defined. -/
def profileUpdateData (namev bio location gname gsize : Option Json)
    (now : String) : DRow :=
  [("updated_at", .str now)]
  ++ (if jsTruthy namev then [("name", namev.getD .null)] else [])
  ++ (match bio with | some v => [("bio", v)] | none => [])
  ++ (match location with | some v => [("location", v)] | none => [])
  ++ (match gname with | some v => [("garden_name", v)] | none => [])
  ++ (match gsize with | some v => [("garden_size", v)] | none => [])

/-- PUT /api/profile/. `update` maps the update payload to the row data the
store returns for it. -/
def profileUpdate (namev bio location gname gsize : Option Json) (now : String)
    (update : DRow → Option DRow) : Response :=
  match update (profileUpdateData namev bio location gname gsize now) with
  | none =>
      { status := 500, body := .obj [("success", .bool false), ("error", .str "Failed to update profile")] }
  | some user =>
      { status := 200,
        body := .obj [("success", .bool true),
                      ("message", .str "Profile updated successfully"),
                      ("user", .obj (selectCols profileCols user))] }

/-- POST /api/profile/upload-image. `file` is the path of the uploaded file
on the media store, absent when no file was sent. -/
def profileUploadImage (file : Option String) (now : String)
    (update : DRow → Option DRow) : Response :=
  match file with
  | none =>
      { status := 400, body := .obj [("success", .bool false), ("error", .str "No image file provided")] }
  | some path =>
      match update [("profile_image_url", .str path), ("updated_at", .str now)] with
      | none =>
          { status := 500, body := .obj [("success", .bool false), ("error", .str "Failed to update profile image")] }
      | some user =>
          { status := 200,
            body := .obj [("success", .bool true),
                          ("message", .str "Profile image uploaded successfully"),
                          ("imageUrl", .str path),
                          ("user", .obj (selectCols imageCols user))] }

/-- DELETE /api/profile/image. `fetchRes` is the result of the current-URL
lookup (an error there is only logged); the remote destroy call has no
observable effect on the response, and its failure is tolerated, so it is
not modelled. `update` maps the null-URL update payload to the row data the
store returns. -/
def profileDeleteImage (_fetchRes : Option DRow) (now : String)
    (update : DRow → Option DRow) : Response :=
  match update [("profile_image_url", .null), ("updated_at", .str now)] with
  | none =>
      { status := 500, body := .obj [("success", .bool false), ("error", .str "Failed to remove profile image")] }
  | some user =>
      { status := 200,
        body := .obj [("success", .bool true),
                      ("message", .str "Profile image removed successfully"),
                      ("user", .obj (selectCols imageCols user))] }

/-! ## Gardens and crops routes (src/routes/gardens.js and the crops
router, src/unnamed/part_001)

These routes read and write garden and crop rows, so the store is modelled
as explicit state: lists of typed rows. Route parameters arrive through the
authentication middleware and URL as the requesting user id and resource
id. Column values are scalars. -/

/-- A scalar column value of a garden or crop row. -/
inductive JVal where
  | jnull : JVal
  | jbool (b : Bool) : JVal
  | jnum (n : Int) : JVal
  | jstr (s : String) : JVal
deriving DecidableEq

/-- JavaScript truthiness of a column value. -/
def JVal.truthy : JVal → Bool
  | .jnull => false
  | .jbool b => b
  | .jnum n => n != 0
  | .jstr s => s != ""

/-- Truthiness of a possibly-undefined column value. -/
def jsTruthyV : Option JVal → Bool
  | none => false
  | some v => v.truthy

/-- JavaScript `x || d` on a possibly-undefined value: the value when
truthy, the default otherwise. -/
def ffTruthy (o : Option JVal) (d : JVal) : JVal :=
  match o with
  | some v => if v.truthy then v else d
  | none => d

/-- JavaScript `x || undefined-valued-fallback`: the value when truthy,
undefined otherwise (the shape the garden update merge takes, because its
ownership check selected only the id column). -/
def ffTruthyU (o : Option JVal) : Option JVal :=
  match o with
  | some v => if v.truthy then some v else none
  | none => none

structure Garden where
  id : Nat
  user_id : Nat
  name : JVal
  location : JVal
  type : JVal
  size : JVal
  description : JVal
  created_at : String
  updated_at : String
deriving DecidableEq

structure Crop where
  id : Nat
  garden_id : Nat
  user_id : Nat
  name : JVal
  category : JVal
  variety : JVal
  planting_date : JVal
  expected_harvest : JVal
  status : JVal
  progress : JVal
  notes : JVal
  image_url : JVal
  is_shared : JVal
  quantity : JVal
  quantity_unit : JVal
  created_at : String
  updated_at : String
deriving DecidableEq

/-- The state of the relational store the gardens and crops routes touch. -/
structure DB where
  gardens : List Garden
  crops : List Crop
deriving DecidableEq

/-- A handler result: status code and the row payload of a success body. -/
structure HRes (α : Type) where
  status : Nat
  payload : Option α
deriving DecidableEq

/-- GET /api/gardens/:id. A `.single()` query with no matching row reports
an error, which this handler rethrows (`if (error) throw error`), so the
catch block answers 500; the `if (!garden)` 404 branch that follows the
throw is unreachable, because the store returns a null row exactly when it
reports an error. -/
def gardensGetOne (db : DB) (uid gid : Nat) : HRes Garden :=
  match singleQ db.gardens (fun g => g.id == gid && g.user_id == uid) with
  | none => { status := 500, payload := none }
  | some g => { status := 200, payload := some g }

/-- The request body of PUT /api/gardens/:id. -/
structure GardenBody where
  name : Option JVal
  location : Option JVal
  type : Option JVal
  size : Option JVal
  description : Option JVal

/-- The update payload PUT /api/gardens/:id builds. The ownership check
selected only the id column, so every `existingGarden.x` fallback is
undefined: a field here is `none` exactly when the built object holds
undefined, which the store client drops from the payload, leaving that
column unchanged. -/
structure GardenPatch where
  name : Option JVal
  location : Option JVal
  type : Option JVal
  size : Option JVal
  description : Option JVal
  updated_at : String

def gardenUpdateData (b : GardenBody) (now : String) : GardenPatch :=
  { name := ffTruthyU b.name,
    location := b.location,
    type := ffTruthyU b.type,
    size := ffTruthyU b.size,
    description := b.description,
    updated_at := now }

/-- The store applying an update payload to a garden row: defined entries
overwrite the column, dropped (undefined) entries leave it unchanged. -/
def applyGardenPatch (p : GardenPatch) (g : Garden) : Garden :=
  { g with
    name := p.name.getD g.name,
    location := p.location.getD g.location,
    type := p.type.getD g.type,
    size := p.size.getD g.size,
    description := p.description.getD g.description,
    updated_at := p.updated_at }

/-- PUT /api/gardens/:id. The ownership check filters by id and user id;
the update itself filters by id alone, as in the code. -/
def gardensUpdate (db : DB) (uid gid : Nat) (b : GardenBody) (now : String) :
    HRes Garden × DB :=
  match singleQ db.gardens (fun g => g.id == gid && g.user_id == uid) with
  | none => ({ status := 404, payload := none }, db)
  | some _ =>
      let p := gardenUpdateData b now
      let gardens2 := db.gardens.map (fun g => if g.id == gid then applyGardenPatch p g else g)
      let db2 : DB := { db with gardens := gardens2 }
      match singleQ gardens2 (fun g => g.id == gid) with
      | none => ({ status := 500, payload := none }, db2)
      | some g2 => ({ status := 200, payload := some g2 }, db2)

/-- DELETE /api/gardens/:id. -/
def gardensDelete (db : DB) (uid gid : Nat) : HRes Unit × DB :=
  match singleQ db.gardens (fun g => g.id == gid && g.user_id == uid) with
  | none => ({ status := 404, payload := none }, db)
  | some _ =>
      ({ status := 200, payload := some () },
       { db with gardens := db.gardens.filter (fun g => !(g.id == gid)) })

/-- GET /api/crops/:id. Same rethrow-before-404 structure as the single
garden fetch; the embedded gardens(name, location) join of the select only
adds joined display fields to the payload and plays no role in the stated
properties. -/
def cropsGetOne (db : DB) (uid cid : Nat) : HRes Crop :=
  match singleQ db.crops (fun c => c.id == cid && c.user_id == uid) with
  | none => { status := 500, payload := none }
  | some c => { status := 200, payload := some c }

/-- The request body of POST /api/crops. -/
structure CropBody where
  garden_id : Option Nat
  name : Option JVal
  category : Option JVal
  variety : Option JVal
  planting_date : Option JVal
  expected_harvest : Option JVal
  status : Option JVal
  progress : Option JVal
  notes : Option JVal
  image_url : Option JVal
  is_shared : Option JVal
  quantity : Option JVal
  quantity_unit : Option JVal

/-- Truthiness of the numeric garden_id body field (0 is falsy). -/
def natIdTruthy : Option Nat → Bool
  | none => false
  | some n => n != 0

/-- The id the store assigns to an inserted crop row. -/
def nextCropId (db : DB) : Nat := (db.crops.map Crop.id).foldr max 0 + 1

/-- The cropData object POST /api/crops inserts. -/
def cropData (uid gid : Nat) (b : CropBody) (now : String) (newId : Nat) : Crop :=
  { id := newId,
    garden_id := gid,
    user_id := uid,
    name := b.name.getD .jnull,
    category := ffTruthy b.category (.jstr "vegetable"),
    variety := ffTruthy b.variety .jnull,
    planting_date := ffTruthy b.planting_date .jnull,
    expected_harvest := ffTruthy b.expected_harvest .jnull,
    status := ffTruthy b.status (.jstr "seedling"),
    progress := ffTruthy b.progress (.jnum 0),
    notes := ffTruthy b.notes .jnull,
    image_url := ffTruthy b.image_url .jnull,
    is_shared := ffTruthy b.is_shared (.jbool false),
    quantity := ffTruthy b.quantity (.jnum 1),
    quantity_unit := ffTruthy b.quantity_unit .jnull,
    created_at := now,
    updated_at := now }

/-- POST /api/crops. -/
def cropsCreate (db : DB) (uid : Nat) (b : CropBody) (now : String) :
    HRes Crop × DB :=
  if !jsTruthyV b.name || !natIdTruthy b.garden_id then
    ({ status := 400, payload := none }, db)
  else
    let gid := b.garden_id.getD 0
    match singleQ db.gardens (fun g => g.id == gid && g.user_id == uid) with
    | none => ({ status := 404, payload := none }, db)
    | some _ =>
        let c := cropData uid gid b now (nextCropId db)
        ({ status := 201, payload := some c }, { db with crops := db.crops ++ [c] })

/-- The request body of PUT /api/crops/:id (the handler reads these twelve
fields off req.body; garden_id and user_id are never read). -/
structure CropUpd where
  name : Option JVal
  category : Option JVal
  variety : Option JVal
  planting_date : Option JVal
  expected_harvest : Option JVal
  status : Option JVal
  progress : Option JVal
  notes : Option JVal
  image_url : Option JVal
  is_shared : Option JVal
  quantity : Option JVal
  quantity_unit : Option JVal

/-- The updateData object PUT /api/crops/:id builds: here the ownership
check selected all columns, so every fallback is the stored value and every
entry is defined. -/
structure CropPatch where
  name : JVal
  category : JVal
  variety : JVal
  planting_date : JVal
  expected_harvest : JVal
  status : JVal
  progress : JVal
  notes : JVal
  image_url : JVal
  is_shared : JVal
  quantity : JVal
  quantity_unit : JVal
  updated_at : String

def cropUpdateData (e : Crop) (b : CropUpd) (now : String) : CropPatch :=
  { name := ffTruthy b.name e.name,
    category := ffTruthy b.category e.category,
    variety := b.variety.getD e.variety,
    planting_date := b.planting_date.getD e.planting_date,
    expected_harvest := b.expected_harvest.getD e.expected_harvest,
    status := ffTruthy b.status e.status,
    progress := b.progress.getD e.progress,
    notes := b.notes.getD e.notes,
    image_url := b.image_url.getD e.image_url,
    is_shared := b.is_shared.getD e.is_shared,
    quantity := b.quantity.getD e.quantity,
    quantity_unit := b.quantity_unit.getD e.quantity_unit,
    updated_at := now }

/-- The store applying the update payload to a crop row: the payload
carries exactly the twelve content columns and updated_at, so id,
garden_id, user_id and created_at are untouched. -/
def applyCropPatch (p : CropPatch) (c : Crop) : Crop :=
  { c with
    name := p.name,
    category := p.category,
    variety := p.variety,
    planting_date := p.planting_date,
    expected_harvest := p.expected_harvest,
    status := p.status,
    progress := p.progress,
    notes := p.notes,
    image_url := p.image_url,
    is_shared := p.is_shared,
    quantity := p.quantity,
    quantity_unit := p.quantity_unit,
    updated_at := p.updated_at }

/-- PUT /api/crops/:id. The ownership check filters by id and user id; the
update itself filters by id alone, as in the code. -/
def cropsUpdate (db : DB) (uid cid : Nat) (b : CropUpd) (now : String) :
    HRes Crop × DB :=
  match singleQ db.crops (fun c => c.id == cid && c.user_id == uid) with
  | none => ({ status := 404, payload := none }, db)
  | some e =>
      let p := cropUpdateData e b now
      let crops2 := db.crops.map (fun c => if c.id == cid then applyCropPatch p c else c)
      let db2 : DB := { db with crops := crops2 }
      match singleQ crops2 (fun c => c.id == cid) with
      | none => ({ status := 500, payload := none }, db2)
      | some c2 => ({ status := 200, payload := some c2 }, db2)

/-- DELETE /api/crops/:id. -/
def cropsDelete (db : DB) (uid cid : Nat) : HRes Unit × DB :=
  match singleQ db.crops (fun c => c.id == cid && c.user_id == uid) with
  | none => ({ status := 404, payload := none }, db)
  | some _ =>
      ({ status := 200, payload := some () },
       { db with crops := db.crops.filter (fun c => !(c.id == cid)) })

/-- One crop write: a create or an update request, by any requester, with
any body. -/
inductive CropStep : DB → DB → Prop where
  | create (db : DB) (uid : Nat) (b : CropBody) (now : String) :
      CropStep db (cropsCreate db uid b now).2
  | update (db : DB) (uid cid : Nat) (b : CropUpd) (now : String) :
      CropStep db (cropsUpdate db uid cid b now).2

/-- Reachability by a sequence of crop create / update requests. -/
inductive CropReach : DB → DB → Prop where
  | refl (db : DB) : CropReach db db
  | tail {a b c : DB} : CropReach a b → CropStep b c → CropReach a c

/-- Every crop row references a garden of the same owner. -/
def cropGardenInv (db : DB) : Prop :=
  ∀ c ∈ db.crops, ∃ g ∈ db.gardens, g.id = c.garden_id ∧ g.user_id = c.user_id

instance (db : DB) : Decidable (cropGardenInv db) := List.decidableBAll _ db.crops

/-! ## Concrete fixtures used by witnesses and counterexamples -/

/-- A garden owned by user 2. -/
def gardenOther : Garden :=
  { id := 1, user_id := 2, name := .jstr "G", location := .jnull,
    type := .jstr "outdoor", size := .jstr "medium", description := .jnull,
    created_at := "t0", updated_at := "t0" }

/-- A garden owned by user 1. -/
def gardenMine : Garden :=
  { id := 1, user_id := 1, name := .jstr "G", location := .jstr "L",
    type := .jstr "outdoor", size := .jstr "medium", description := .jnull,
    created_at := "t0", updated_at := "t0" }

/-- A crop owned by user 2, in garden 1. -/
def cropOther : Crop :=
  { id := 1, garden_id := 1, user_id := 2, name := .jstr "Tomato",
    category := .jstr "vegetable", variety := .jnull, planting_date := .jnull,
    expected_harvest := .jnull, status := .jstr "seedling", progress := .jnum 50,
    notes := .jnull, image_url := .jnull, is_shared := .jbool false,
    quantity := .jnum 2, quantity_unit := .jstr "kg",
    created_at := "t0", updated_at := "t0" }

/-- A crop owned by user 1, in garden 1. -/
def cropMine : Crop :=
  { id := 1, garden_id := 1, user_id := 1, name := .jstr "Tomato",
    category := .jstr "vegetable", variety := .jnull, planting_date := .jnull,
    expected_harvest := .jnull, status := .jstr "seedling", progress := .jnum 50,
    notes := .jnull, image_url := .jnull, is_shared := .jbool false,
    quantity := .jnum 2, quantity_unit := .jstr "kg",
    created_at := "t0", updated_at := "t0" }

/-- An update request body that supplies no field. -/
def cropUpdNone : CropUpd :=
  { name := none, category := none, variety := none, planting_date := none,
    expected_harvest := none, status := none, progress := none, notes := none,
    image_url := none, is_shared := none, quantity := none, quantity_unit := none }

/-- A garden update request body that supplies no field. -/
def gardenBodyNone : GardenBody :=
  { name := none, location := none, type := none, size := none, description := none }

/-- A crop create request body that supplies no field. -/
def cropBodyNone : CropBody :=
  { garden_id := none, name := none, category := none, variety := none,
    planting_date := none, expected_harvest := none, status := none,
    progress := none, notes := none, image_url := none, is_shared := none,
    quantity := none, quantity_unit := none }

/-- A progress column value inside the 0..100 range of the data model. -/
def progressInRangeB : JVal → Bool
  | .jnum n => decide (0 ≤ n) && decide (n ≤ 100)
  | _ => false

/-! ## Key lemmas for response bodies -/

theorem keysF_append (a b : List (String × Json)) :
    Json.keysF (a ++ b) = Json.keysF a ++ Json.keysF b := by
  induction a with
  | nil => simp [Json.keysF]
  | cons p fs ih => cases p; simp [Json.keysF, ih]

theorem keysRec_leaf {v : Json} (h : Json.isLeaf v = true) : Json.keysRec v = [] := by
  cases v <;> simp_all [Json.isLeaf, Json.keysRec]

theorem not_mem_keysF {key : String} {fs : List (String × Json)}
    (h1 : ∀ p ∈ fs, p.1 ≠ key) (h2 : ∀ p ∈ fs, key ∉ Json.keysRec p.2) :
    key ∉ Json.keysF fs := by
  induction fs with
  | nil => simp [Json.keysF]
  | cons p fs ih =>
      cases p with
      | mk k v =>
          simp only [Json.keysF, List.mem_cons, List.mem_append]
          push_neg
          refine ⟨?_, ?_, ?_⟩
          · exact fun he => (h1 (k, v) (List.mem_cons_self _ _) he.symm).elim
          · exact h2 (k, v) (List.mem_cons_self _ _)
          · exact ih (fun q hq => h1 q (List.mem_cons_of_mem _ hq))
              (fun q hq => h2 q (List.mem_cons_of_mem _ hq))

theorem not_mem_keysL {key : String} {xs : List Json}
    (h : ∀ x ∈ xs, key ∉ Json.keysRec x) : key ∉ Json.keysL xs := by
  induction xs with
  | nil => simp [Json.keysL]
  | cons x xs ih =>
      simp only [Json.keysL, List.mem_append]
      push_neg
      exact ⟨h x (List.mem_cons_self _ _),
             ih (fun y hy => h y (List.mem_cons_of_mem _ hy))⟩

theorem jsGet_some_mem {r : DRow} {k : String} {v : Json} (h : jsGet r k = some v) :
    ∃ q ∈ r, q.2 = v := by
  unfold jsGet at h
  cases hf : r.find? (fun p => p.1 == k) with
  | none => rw [hf] at h; simp at h
  | some q =>
      rw [hf] at h
      simp only [Option.map_some', Option.some.injEq] at h
      exact ⟨q, List.mem_of_find?_eq_some hf, h⟩

theorem mem_selectCols {cols : List String} {r : DRow} {p : String × Json}
    (h : p ∈ selectCols cols r) : p.1 ∈ cols ∧ ∃ q ∈ r, q.2 = p.2 := by
  unfold selectCols at h
  rcases List.mem_filterMap.mp h with ⟨c, hc, he⟩
  cases hg : jsGet r c with
  | none => rw [hg] at he; simp at he
  | some v =>
      rw [hg] at he
      simp only [Option.map_some', Option.some.injEq] at he
      subst he
      exact ⟨hc, jsGet_some_mem hg⟩

/-- A key outside the selected columns does not occur anywhere in the
projection of a flat row. -/
theorem keys_select {key : String} {cols : List String} {r : DRow}
    (hf : rowFlat r) (hc : key ∉ cols) :
    key ∉ Json.keysRec (.obj (selectCols cols r)) := by
  show key ∉ Json.keysF (selectCols cols r)
  refine not_mem_keysF (fun p hp => ?_) (fun p hp => ?_)
  · intro he; exact hc (he ▸ (mem_selectCols hp).1)
  · rcases (mem_selectCols hp).2 with ⟨q, hq, hv⟩
    rw [keysRec_leaf (hv ▸ hf q hq)]
    exact List.not_mem_nil _

/-- The stripped key does not occur anywhere in the rest-destructuring of a
flat row. -/
theorem keys_strip {key : String} {r : DRow} (hf : rowFlat r) :
    key ∉ Json.keysRec (.obj (stripKey r key)) := by
  show key ∉ Json.keysF (stripKey r key)
  refine not_mem_keysF (fun p hp => ?_) (fun p hp => ?_)
  · have := (List.mem_filter.mp hp).2
    simpa [bne_iff_ne] using this
  · have hm := (List.mem_filter.mp hp).1
    rw [keysRec_leaf (hf p hm)]
    exact List.not_mem_nil _

/-- A key outside the selected columns does not occur in an array of
projections of flat rows. -/
theorem keys_arr_select {key : String} {cols : List String} {rows : List DRow}
    (hf : ∀ r ∈ rows, rowFlat r) (hc : key ∉ cols) :
    key ∉ Json.keysRec (.arr (rows.map (fun r => .obj (selectCols cols r)))) := by
  show key ∉ Json.keysL (rows.map (fun r => .obj (selectCols cols r)))
  refine not_mem_keysL (fun x hx => ?_)
  rcases List.mem_map.mp hx with ⟨r, hr, he⟩
  exact he ▸ keys_select (hf r hr) hc

theorem not_mem_keysF_nil {key : String} : key ∉ Json.keysF [] := by
  simp [Json.keysF]

theorem not_mem_keysF_cons {key k : String} {v : Json} {fs : List (String × Json)}
    (h1 : k ≠ key) (h2 : key ∉ Json.keysRec v) (h3 : key ∉ Json.keysF fs) :
    key ∉ Json.keysF ((k, v) :: fs) := by
  simp only [Json.keysF, List.mem_cons, List.mem_append]
  push_neg
  exact ⟨fun he => h1 he.symm, h2, h3⟩


theorem not_mem_keysObj_nil {key : String} : key ∉ Json.keysRec (.obj []) := by
  simp [Json.keysRec, Json.keysF]

theorem not_mem_keysObj_cons {key k : String} {v : Json} {fs : List (String × Json)}
    (h1 : k ≠ key) (h2 : key ∉ Json.keysRec v) (h3 : key ∉ Json.keysRec (.obj fs)) :
    key ∉ Json.keysRec (.obj ((k, v) :: fs)) := by
  have h3f : key ∉ Json.keysF fs := h3
  show key ∉ Json.keysF ((k, v) :: fs)
  exact not_mem_keysF_cons h1 h2 h3f

theorem not_mem_keysObj_append {key : String} {a b : List (String × Json)}
    (h1 : key ∉ Json.keysRec (.obj a)) (h2 : key ∉ Json.keysRec (.obj b)) :
    key ∉ Json.keysRec (.obj (a ++ b)) := by
  have h1f : key ∉ Json.keysF a := h1
  have h2f : key ∉ Json.keysF b := h2
  show key ∉ Json.keysF (a ++ b)
  rw [keysF_append]
  simp only [List.mem_append]
  push_neg
  exact ⟨h1f, h2f⟩

/-- C1: for every request handled by register, login, /me, the profile
reads and update, and the image upload / delete, the JSON response body
never contains a password_hash field, whatever the request data and
whatever (flat) rows the store returns. -/
theorem C1_password_hash_never_in_responses :
    (∀ secret encode nowSec nowIso hp emailv password namev phone existingRes
        (insert : DRow → Option DRow),
        (∀ p u, insert p = some u → rowFlat u) →
        "password_hash" ∉ Json.keysRec
          (authRegister secret encode nowSec nowIso hp emailv password namev phone
            existingRes insert).body) ∧
    (∀ secret encode nowSec emailv password userRes bcompare,
        (∀ u ∈ userRes, rowFlat u) →
        "password_hash" ∉ Json.keysRec
          (authLogin secret encode nowSec emailv password userRes bcompare).resp.body) ∧
    (∀ secret decode nowSec authHeader (lookup : Option Json → Option DRow),
        (∀ i u, lookup i = some u → rowFlat u) →
        "password_hash" ∉ Json.keysRec
          (authMe secret decode nowSec authHeader lookup).body) ∧
    (∀ userRes cropsRes histRes,
        (∀ u ∈ userRes, rowFlat u) →
        (∀ r ∈ histRes.getD [], rowFlat r) →
        "password_hash" ∉ Json.keysRec (profileGetById userRes cropsRes histRes).body) ∧
    (∀ userRes gardensRes cropsRes histRes kg hc co,
        (∀ u ∈ userRes, rowFlat u) →
        (∀ r ∈ gardensRes.getD [], rowFlat r) →
        (∀ r ∈ cropsRes.getD [], rowFlat r) →
        (∀ r ∈ histRes.getD [], rowFlat r) →
        "password_hash" ∉ Json.keysRec
          (profileGetCurrent userRes gardensRes cropsRes histRes kg hc co).body) ∧
    (∀ namev bio location gname gsize now (update : DRow → Option DRow),
        (∀ p u, update p = some u → rowFlat u) →
        "password_hash" ∉ Json.keysRec
          (profileUpdate namev bio location gname gsize now update).body) ∧
    (∀ file now (update : DRow → Option DRow),
        (∀ p u, update p = some u → rowFlat u) →
        "password_hash" ∉ Json.keysRec (profileUploadImage file now update).body) ∧
    (∀ fetchRes now (update : DRow → Option DRow),
        (∀ p u, update p = some u → rowFlat u) →
        "password_hash" ∉ Json.keysRec (profileDeleteImage fetchRes now update).body) := by
  refine ⟨?_, ?_, ?_, ?_, ?_, ?_, ?_, ?_⟩
  · -- register
    intro secret encode nowSec nowIso hp emailv password namev phone existingRes insert hins
    unfold authRegister
    split
    · decide
    · cases existingRes with
      | some u => dsimp only; decide
      | none =>
          dsimp only
          cases heq : insert (registerRow (emailv.getD Json.null) hp (namev.getD Json.null)
              phone nowIso) with
          | none => dsimp only; decide
          | some user =>
              dsimp only
              have hu : rowFlat user := hins _ _ heq
              exact not_mem_keysObj_cons (by decide) (by simp [Json.keysRec])
                (not_mem_keysObj_cons (by decide) (keys_strip hu)
                  (not_mem_keysObj_cons (by decide) (by simp [Json.keysRec]) not_mem_keysObj_nil))
  · -- login
    intro secret encode nowSec emailv password userRes bcompare hu
    unfold authLogin
    split
    · decide
    · cases userRes with
      | none => dsimp only; decide
      | some user =>
          dsimp only
          split
          · decide
          · have hf : rowFlat user := hu user rfl
            exact not_mem_keysObj_cons (by decide) (by simp [Json.keysRec])
              (not_mem_keysObj_cons (by decide) (keys_strip hf)
                (not_mem_keysObj_cons (by decide) (by simp [Json.keysRec]) not_mem_keysObj_nil))
  · -- me
    intro secret decode nowSec authHeader lookup hl
    unfold authMe
    cases authHeader with
    | none => dsimp only; decide
    | some h =>
        dsimp only
        split
        · decide
        · split
          · decide
          · cases jwtVerifyStr secret decode nowSec (headerToken h) with
            | error e =>
                cases e with
                | invalid m =>
                    dsimp only
                    unfold meBodyInvalid
                    exact not_mem_keysObj_cons (by decide) (by simp [Json.keysRec])
                      (not_mem_keysObj_cons (by decide) (by simp [Json.keysRec])
                        (not_mem_keysObj_cons (by decide) (by simp [Json.keysRec])
                          not_mem_keysObj_nil))
                | expired => dsimp only; decide
            | ok decoded =>
                dsimp only
                cases heq : lookup decoded.idClaim with
                | none => dsimp only; decide
                | some user =>
                    dsimp only
                    exact not_mem_keysObj_cons (by decide) (by simp [Json.keysRec])
                      (not_mem_keysObj_cons (by decide) (keys_select (hl _ _ heq) (by decide))
                        not_mem_keysObj_nil)
  · -- profile get by id
    intro userRes cropsRes histRes hu hh
    unfold profileGetById
    cases userRes with
    | none => dsimp only; decide
    | some u =>
        dsimp only
        refine not_mem_keysObj_cons (by decide) (by simp [Json.keysRec]) ?_
        refine not_mem_keysObj_cons (by decide) ?_ not_mem_keysObj_nil
        refine not_mem_keysObj_append (keys_select (hu u rfl) (by decide)) ?_
        refine not_mem_keysObj_cons (by decide)
          (by simp [profileStats, Json.keysRec, Json.keysF]) ?_
        exact not_mem_keysObj_cons (by decide) (keys_arr_select hh (by decide))
          not_mem_keysObj_nil
  · -- profile get current
    intro userRes gardensRes cropsRes histRes kg hc co hu hg hcr hh
    unfold profileGetCurrent
    cases userRes with
    | none => dsimp only; decide
    | some u =>
        dsimp only
        refine not_mem_keysObj_cons (by decide) (by simp [Json.keysRec]) ?_
        refine not_mem_keysObj_cons (by decide) ?_ not_mem_keysObj_nil
        refine not_mem_keysObj_append (keys_select (hu u rfl) (by decide)) ?_
        refine not_mem_keysObj_cons (by decide) (by simp [Json.keysRec, Json.keysF]) ?_
        refine not_mem_keysObj_cons (by decide) (keys_arr_select hg (by decide)) ?_
        refine not_mem_keysObj_cons (by decide) (keys_arr_select hcr (by decide)) ?_
        exact not_mem_keysObj_cons (by decide) (keys_arr_select hh (by decide))
          not_mem_keysObj_nil
  · -- profile update
    intro namev bio location gname gsize now update hup
    unfold profileUpdate
    cases heq : update (profileUpdateData namev bio location gname gsize now) with
    | none => dsimp only; decide
    | some user =>
        dsimp only
        exact not_mem_keysObj_cons (by decide) (by simp [Json.keysRec])
          (not_mem_keysObj_cons (by decide) (by simp [Json.keysRec])
            (not_mem_keysObj_cons (by decide) (keys_select (hup _ _ heq) (by decide))
              not_mem_keysObj_nil))
  · -- upload image
    intro file now update hup
    unfold profileUploadImage
    cases file with
    | none => dsimp only; decide
    | some path =>
        dsimp only
        cases heq : update [("profile_image_url", .str path), ("updated_at", .str now)] with
        | none => dsimp only; decide
        | some user =>
            dsimp only
            exact not_mem_keysObj_cons (by decide) (by simp [Json.keysRec])
              (not_mem_keysObj_cons (by decide) (by simp [Json.keysRec])
                (not_mem_keysObj_cons (by decide) (by simp [Json.keysRec])
                  (not_mem_keysObj_cons (by decide) (keys_select (hup _ _ heq) (by decide))
                    not_mem_keysObj_nil)))
  · -- delete image
    intro fetchRes now update hup
    unfold profileDeleteImage
    cases heq : update [("profile_image_url", .null), ("updated_at", .str now)] with
    | none => dsimp only; decide
    | some user =>
        dsimp only
        exact not_mem_keysObj_cons (by decide) (by simp [Json.keysRec])
          (not_mem_keysObj_cons (by decide) (by simp [Json.keysRec])
            (not_mem_keysObj_cons (by decide) (keys_select (hup _ _ heq) (by decide))
              not_mem_keysObj_nil))

/-- Witness for C1: the guarantee instantiated at concrete requests against
a store whose user rows do carry a password_hash column. -/
theorem C1_password_hash_never_in_responses_witness :
    ("password_hash" ∉ Json.keysRec
      (authRegister "s" (fun _ => "tok") 0 "t" "H" (some (.str "a")) (some (.str "pw"))
        (some (.str "Al")) none none
        (fun _ => some [("id", Json.num 1), ("email", Json.str "a"),
          ("password_hash", Json.str "H"), ("name", Json.str "Al")])).body) ∧
    ("password_hash" ∉ Json.keysRec
      (authLogin "s" (fun _ => "tok") 0 (some (.str "a")) (some (.str "pw"))
        (some [("id", Json.num 1), ("email", Json.str "a"),
          ("password_hash", Json.str "H"), ("name", Json.str "Al")])
        (fun _ _ => true)).resp.body) ∧
    ("password_hash" ∉ Json.keysRec
      (authMe "s" (fun _ => none) 0 (some "Bearer tok")
        (fun _ => some [("id", Json.num 1), ("email", Json.str "a"),
          ("password_hash", Json.str "H"), ("name", Json.str "Al")])).body) ∧
    ("password_hash" ∉ Json.keysRec (profileGetById
        (some [("id", Json.num 1), ("password_hash", Json.str "H")]) none
        (some [[("id", Json.num 1), ("password_hash", Json.str "H")]])).body) ∧
    ("password_hash" ∉ Json.keysRec (profileGetCurrent
        (some [("id", Json.num 1), ("password_hash", Json.str "H")])
        (some [[("id", Json.num 1)]]) (some [[("id", Json.num 1)]])
        (some [[("id", Json.num 1)]]) 7 2 5).body) ∧
    ("password_hash" ∉ Json.keysRec (profileUpdate (some (.str "Al")) none none none none "t"
        (fun _ => some [("id", Json.num 1), ("password_hash", Json.str "H")])).body) ∧
    ("password_hash" ∉ Json.keysRec (profileUploadImage (some "p.jpg") "t"
        (fun _ => some [("id", Json.num 1), ("password_hash", Json.str "H")])).body) ∧
    ("password_hash" ∉ Json.keysRec (profileDeleteImage none "t"
        (fun _ => some [("id", Json.num 1), ("password_hash", Json.str "H")])).body) := by
  have h := C1_password_hash_never_in_responses
  refine ⟨h.1 _ _ _ _ _ _ _ _ _ _ _
      (fun p u hh => by have h2 := Option.some.inj hh; subst h2; decide),
    h.2.1 _ _ _ _ _ _ _
      (fun u hu => by
        rw [Option.mem_def] at hu
        have h2 := Option.some.inj hu; subst h2; decide),
    h.2.2.1 _ _ _ _ _
      (fun i u hh => by have h2 := Option.some.inj hh; subst h2; decide),
    h.2.2.2.1 _ _ _
      (fun u hu => by
        rw [Option.mem_def] at hu
        have h2 := Option.some.inj hu; subst h2; decide)
      (by decide),
    h.2.2.2.2.1 _ _ _ _ _ _ _
      (fun u hu => by
        rw [Option.mem_def] at hu
        have h2 := Option.some.inj hu; subst h2; decide)
      (by decide) (by decide) (by decide),
    h.2.2.2.2.2.1 _ _ _ _ _ _ _
      (fun p u hh => by have h2 := Option.some.inj hh; subst h2; decide),
    h.2.2.2.2.2.2.1 _ _ _
      (fun p u hh => by have h2 := Option.some.inj hh; subst h2; decide),
    h.2.2.2.2.2.2.2 _ _ _
      (fun p u hh => by have h2 := Option.some.inj hh; subst h2; decide)⟩

/-! ## Store and merge lemmas -/

theorem singleQ_some {α : Type} {l : List α} {p : α → Bool} {r : α}
    (h : singleQ l p = some r) : r ∈ l ∧ p r = true := by
  unfold singleQ at h
  split at h
  · rename_i r2 heq
    have hr : r2 = r := Option.some.inj h
    subst hr
    have hm : r2 ∈ l.filter p := by rw [heq]; exact List.mem_singleton.mpr rfl
    exact ⟨(List.mem_filter.mp hm).1, (List.mem_filter.mp hm).2⟩
  · exact absurd h (by simp)

theorem ffTruthy_of_truthy {o : Option JVal} {d : JVal} (h : jsTruthyV o = true) :
    ffTruthy o d = o.getD .jnull := by
  cases o with
  | none => simp [jsTruthyV] at h
  | some v =>
      simp only [jsTruthyV] at h
      simp [ffTruthy, h]

theorem ffTruthy_of_falsy {o : Option JVal} {d : JVal} (h : jsTruthyV o = false) :
    ffTruthy o d = d := by
  cases o with
  | none => rfl
  | some v =>
      simp only [jsTruthyV] at h
      simp [ffTruthy, h]

/-- PUT /api/crops/:id against a store holding exactly the addressed crop,
owned by the requester: the handler answers 200 and the stored row becomes
the patched row. -/
theorem cropsUpdate_single (gs : List Garden) (e : Crop) (uid cid : Nat)
    (b : CropUpd) (now : String) (h1 : e.id = cid) (h2 : e.user_id = uid) :
    cropsUpdate ⟨gs, [e]⟩ uid cid b now =
      ({ status := 200, payload := some (applyCropPatch (cropUpdateData e b now) e) },
       ⟨gs, [applyCropPatch (cropUpdateData e b now) e]⟩) := by
  subst h1
  subst h2
  unfold cropsUpdate
  simp [singleQ, List.filter, applyCropPatch]

/-- PUT /api/gardens/:id against a store holding exactly the addressed
garden, owned by the requester. -/
theorem gardensUpdate_single (cs : List Crop) (e : Garden) (uid gid : Nat)
    (b : GardenBody) (now : String) (h1 : e.id = gid) (h2 : e.user_id = uid) :
    gardensUpdate ⟨[e], cs⟩ uid gid b now =
      ({ status := 200, payload := some (applyGardenPatch (gardenUpdateData b now) e) },
       ⟨[applyGardenPatch (gardenUpdateData b now) e], cs⟩) := by
  subst h1
  subst h2
  unfold gardensUpdate
  simp [singleQ, List.filter, applyGardenPatch]

/-! ## Branch lemmas for GET /api/auth/me -/

theorem authMe_noHeader (secret : String) (decode : String → Option Token)
    (nowSec : Nat) (lookup : Option Json → Option DRow) :
    authMe secret decode nowSec none lookup = ⟨401, meBodyNoHeader⟩ := rfl

theorem authMe_badFormat (secret : String) (decode : String → Option Token)
    (nowSec : Nat) (lookup : Option Json → Option DRow) (h : String)
    (hs : strStartsWith h "Bearer " = false) :
    authMe secret decode nowSec (some h) lookup = ⟨401, meBodyBadFormat⟩ := by
  unfold authMe
  simp [hs]

theorem authMe_noToken (secret : String) (decode : String → Option Token)
    (nowSec : Nat) (lookup : Option Json → Option DRow) (h : String)
    (hs : strStartsWith h "Bearer " = true) (ht : headerToken h = "") :
    authMe secret decode nowSec (some h) lookup = ⟨401, meBodyNoToken⟩ := by
  unfold authMe
  simp [hs, ht]

theorem authMe_invalidSig (secret : String) (decode : String → Option Token)
    (nowSec : Nat) (lookup : Option Json → Option DRow) (h : String) (t : Token)
    (hs : strStartsWith h "Bearer " = true) (ht : headerToken h ≠ "")
    (hdec : decode (headerToken h) = some t) (hsig : t.sig ≠ secret) :
    authMe secret decode nowSec (some h) lookup =
      ⟨401, meBodyInvalid "invalid signature"⟩ := by
  unfold authMe
  simp [hs, ht, jwtVerifyStr, hdec, jwtVerify, hsig]

theorem authMe_expired_of (secret : String) (decode : String → Option Token)
    (nowSec : Nat) (lookup : Option Json → Option DRow) (h : String) (t : Token)
    (hs : strStartsWith h "Bearer " = true) (ht : headerToken h ≠ "")
    (hdec : decode (headerToken h) = some t) (hsig : t.sig = secret)
    (hexp : t.payload.exp ≤ nowSec) :
    authMe secret decode nowSec (some h) lookup = ⟨401, meBodyExpired⟩ := by
  unfold authMe
  simp [hs, ht, jwtVerifyStr, hdec, jwtVerify, hsig, hexp]

theorem authMe_userMissing (secret : String) (decode : String → Option Token)
    (nowSec : Nat) (lookup : Option Json → Option DRow) (h : String) (t : Token)
    (hs : strStartsWith h "Bearer " = true) (ht : headerToken h ≠ "")
    (hdec : decode (headerToken h) = some t) (hsig : t.sig = secret)
    (hexp : nowSec < t.payload.exp) (hlk : lookup t.payload.idClaim = none) :
    authMe secret decode nowSec (some h) lookup = ⟨404, meBodyUserMissing⟩ := by
  unfold authMe
  simp [hs, ht, jwtVerifyStr, hdec, jwtVerify, hsig, Nat.not_le.mpr hexp, hlk]

/-- C2: the claim says a fetch, update or delete of a garden or crop owned
by another user answers 404 and mutates nothing. Update and delete do; but
the single fetches rethrow the store error of the zero-row `.single()`
query before their own 404 branch, so GET /api/gardens/:id and
GET /api/crops/:id answer 500 there. This theorem evaluates all six
handlers on a store whose only row is owned by user 2 while user 1 asks. -/
theorem C2_cross_owner_results :
    (gardensGetOne ⟨[gardenOther], []⟩ 1 1).status = 500 ∧
    ¬ (gardensGetOne ⟨[gardenOther], []⟩ 1 1).status = 404 ∧
    (cropsGetOne ⟨[], [cropOther]⟩ 1 1).status = 500 ∧
    gardensUpdate ⟨[gardenOther], []⟩ 1 1 gardenBodyNone "t1" =
      ({ status := 404, payload := none }, ⟨[gardenOther], []⟩) ∧
    gardensDelete ⟨[gardenOther], []⟩ 1 1 =
      ({ status := 404, payload := none }, ⟨[gardenOther], []⟩) ∧
    cropsUpdate ⟨[], [cropOther]⟩ 1 1 cropUpdNone "t1" =
      ({ status := 404, payload := none }, ⟨[], [cropOther]⟩) ∧
    cropsDelete ⟨[], [cropOther]⟩ 1 1 =
      ({ status := 404, payload := none }, ⟨[], [cropOther]⟩) := by
  decide

theorem ffTruthyU_of_truthy {o : Option JVal} {d : JVal} (h : jsTruthyV o = true) :
    (ffTruthyU o).getD d = o.getD .jnull := by
  cases o with
  | none => simp [jsTruthyV] at h
  | some v =>
      simp only [jsTruthyV] at h
      simp [ffTruthyU, h]

theorem ffTruthyU_of_falsy {o : Option JVal} {d : JVal} (h : jsTruthyV o = false) :
    (ffTruthyU o).getD d = d := by
  cases o with
  | none => rfl
  | some v =>
      simp only [jsTruthyV] at h
      simp [ffTruthyU, h]

/-- C3 counterexample: the claim says every field whose supplied value is
falsy or undefined takes the prior stored value. For the fields merged with
an `!== undefined` test this fails: a crop update supplying the explicit
falsy value 0 for progress writes 0, not the prior 50. -/
theorem C3_uniform_falsy_fallback_counterexample :
    ¬ (∀ (db : DB) (uid cid : Nat) (b : CropUpd) (now : String) (e c : Crop),
        e ∈ db.crops → e.id = cid → e.user_id = uid →
        c ∈ (cropsUpdate db uid cid b now).2.crops → c.id = cid →
        jsTruthyV b.progress = false → c.progress = e.progress) := by
  intro hcl
  have h2 := hcl ⟨[], [cropMine]⟩ 1 1 { cropUpdNone with progress := some (.jnum 0) } "t1"
      cropMine { cropMine with progress := .jnum 0, updated_at := "t1" }
      (by decide) (by decide) (by decide) (by decide) (by decide) (by decide)
  exact absurd h2 (by decide)

/-- C3 amended: the update handlers merge field-by-field in two regimes.
Fields merged with `||` (garden name / type / size, crop name / category /
status) take the supplied value when truthy and fall back to the stored
value when falsy or undefined; all other fields take any defined supplied
value, falsy included, and fall back to the stored value only when the
field is undefined. Ownership columns and created_at are untouched and
updated_at is set to the request time. -/
theorem C3_update_merge_regimes :
    (∀ (cs : List Crop) (e : Garden) (uid gid : Nat) (b : GardenBody) (now : String),
      e.id = gid → e.user_id = uid →
      ∃ g2 : Garden,
        gardensUpdate ⟨[e], cs⟩ uid gid b now = (⟨200, some g2⟩, ⟨[g2], cs⟩) ∧
        (jsTruthyV b.name = true → g2.name = b.name.getD .jnull) ∧
        (jsTruthyV b.name = false → g2.name = e.name) ∧
        (jsTruthyV b.type = true → g2.type = b.type.getD .jnull) ∧
        (jsTruthyV b.type = false → g2.type = e.type) ∧
        (jsTruthyV b.size = true → g2.size = b.size.getD .jnull) ∧
        (jsTruthyV b.size = false → g2.size = e.size) ∧
        (∀ v, b.location = some v → g2.location = v) ∧
        (b.location = none → g2.location = e.location) ∧
        (∀ v, b.description = some v → g2.description = v) ∧
        (b.description = none → g2.description = e.description) ∧
        g2.id = e.id ∧ g2.user_id = e.user_id ∧ g2.created_at = e.created_at ∧
        g2.updated_at = now) ∧
    (∀ (gs : List Garden) (e : Crop) (uid cid : Nat) (b : CropUpd) (now : String),
      e.id = cid → e.user_id = uid →
      ∃ c2 : Crop,
        cropsUpdate ⟨gs, [e]⟩ uid cid b now = (⟨200, some c2⟩, ⟨gs, [c2]⟩) ∧
        (jsTruthyV b.name = true → c2.name = b.name.getD .jnull) ∧
        (jsTruthyV b.name = false → c2.name = e.name) ∧
        (jsTruthyV b.category = true → c2.category = b.category.getD .jnull) ∧
        (jsTruthyV b.category = false → c2.category = e.category) ∧
        (jsTruthyV b.status = true → c2.status = b.status.getD .jnull) ∧
        (jsTruthyV b.status = false → c2.status = e.status) ∧
        (∀ v, b.variety = some v → c2.variety = v) ∧
        (b.variety = none → c2.variety = e.variety) ∧
        (∀ v, b.planting_date = some v → c2.planting_date = v) ∧
        (b.planting_date = none → c2.planting_date = e.planting_date) ∧
        (∀ v, b.expected_harvest = some v → c2.expected_harvest = v) ∧
        (b.expected_harvest = none → c2.expected_harvest = e.expected_harvest) ∧
        (∀ v, b.progress = some v → c2.progress = v) ∧
        (b.progress = none → c2.progress = e.progress) ∧
        (∀ v, b.notes = some v → c2.notes = v) ∧
        (b.notes = none → c2.notes = e.notes) ∧
        (∀ v, b.image_url = some v → c2.image_url = v) ∧
        (b.image_url = none → c2.image_url = e.image_url) ∧
        (∀ v, b.is_shared = some v → c2.is_shared = v) ∧
        (b.is_shared = none → c2.is_shared = e.is_shared) ∧
        (∀ v, b.quantity = some v → c2.quantity = v) ∧
        (b.quantity = none → c2.quantity = e.quantity) ∧
        (∀ v, b.quantity_unit = some v → c2.quantity_unit = v) ∧
        (b.quantity_unit = none → c2.quantity_unit = e.quantity_unit) ∧
        c2.id = e.id ∧ c2.garden_id = e.garden_id ∧ c2.user_id = e.user_id ∧
        c2.created_at = e.created_at ∧ c2.updated_at = now) := by
  constructor
  · intro cs e uid gid b now h1 h2
    refine ⟨applyGardenPatch (gardenUpdateData b now) e,
      gardensUpdate_single cs e uid gid b now h1 h2,
      fun h => ?_, fun h => ?_, fun h => ?_, fun h => ?_, fun h => ?_, fun h => ?_,
      fun v hv => ?_, fun h => ?_, fun v hv => ?_, fun h => ?_, ?_, ?_, ?_, ?_⟩ <;>
      simp_all [applyGardenPatch, gardenUpdateData, ffTruthyU_of_truthy,
        ffTruthyU_of_falsy]
  · intro gs e uid cid b now h1 h2
    refine ⟨applyCropPatch (cropUpdateData e b now) e,
      cropsUpdate_single gs e uid cid b now h1 h2,
      fun h => ?_, fun h => ?_, fun h => ?_, fun h => ?_, fun h => ?_, fun h => ?_,
      fun v hv => ?_, fun h => ?_, fun v hv => ?_, fun h => ?_, fun v hv => ?_,
      fun h => ?_, fun v hv => ?_, fun h => ?_, fun v hv => ?_, fun h => ?_,
      fun v hv => ?_, fun h => ?_, fun v hv => ?_, fun h => ?_, fun v hv => ?_,
      fun h => ?_, fun v hv => ?_, fun h => ?_, ?_, ?_, ?_, ?_, ?_⟩ <;>
      simp_all [applyCropPatch, cropUpdateData, ffTruthy_of_truthy, ffTruthy_of_falsy]

/-- Witness for the amended C3 at a concrete update: an empty-string name
(falsy) keeps the stored name while an explicit 0 progress is written. -/
theorem C3_update_merge_regimes_witness :
    ∃ c2 : Crop,
      cropsUpdate ⟨[], [cropMine]⟩ 1 1
          { cropUpdNone with name := some (.jstr ""), progress := some (.jnum 0) } "t1" =
        (⟨200, some c2⟩, ⟨[], [c2]⟩) ∧
      c2.name = cropMine.name ∧ c2.progress = .jnum 0 := by
  obtain ⟨c2, heq, hf⟩ := C3_update_merge_regimes.2 [] cropMine 1 1
      { cropUpdNone with name := some (.jstr ""), progress := some (.jnum 0) } "t1"
      (by decide) (by decide)
  refine ⟨c2, heq, hf.2.1 (by decide), ?_⟩
  exact hf.2.2.2.2.2.2.2.2.2.2.2.2.1 (.jnum 0) rfl

/-- C4 counterexample: the claim says every field of the stored crop row
that was not supplied in the request keeps its prior value. updated_at is
never supplied by the request body, yet a partial update that supplies only
progress overwrites it with the request time. -/
theorem C4_unsupplied_fields_counterexample :
    ¬ (∀ (gs : List Garden) (e : Crop) (uid cid : Nat) (v : JVal) (now : String) (c : Crop),
        e.id = cid → e.user_id = uid →
        c ∈ (cropsUpdate ⟨gs, [e]⟩ uid cid
              { cropUpdNone with progress := some v } now).2.crops →
        c.updated_at = e.updated_at) := by
  intro hcl
  have h2 := hcl [] cropMine 1 1 (.jnum 80) "t1"
      { cropMine with progress := .jnum 80, updated_at := "t1" }
      (by decide) (by decide) (by decide)
  exact absurd h2 (by decide)

/-- C4 amended: after an update of an owned crop, every field the request
left undefined keeps its prior stored value, and id, garden_id, user_id and
created_at are always untouched; the only exception is updated_at, which is
set to the request time. -/
theorem C4_partial_update_frame :
    ∀ (gs : List Garden) (e : Crop) (uid cid : Nat) (b : CropUpd) (now : String),
      e.id = cid → e.user_id = uid →
      ∃ c2 : Crop,
        cropsUpdate ⟨gs, [e]⟩ uid cid b now = (⟨200, some c2⟩, ⟨gs, [c2]⟩) ∧
        (b.name = none → c2.name = e.name) ∧
        (b.category = none → c2.category = e.category) ∧
        (b.variety = none → c2.variety = e.variety) ∧
        (b.planting_date = none → c2.planting_date = e.planting_date) ∧
        (b.expected_harvest = none → c2.expected_harvest = e.expected_harvest) ∧
        (b.status = none → c2.status = e.status) ∧
        (b.progress = none → c2.progress = e.progress) ∧
        (b.notes = none → c2.notes = e.notes) ∧
        (b.image_url = none → c2.image_url = e.image_url) ∧
        (b.is_shared = none → c2.is_shared = e.is_shared) ∧
        (b.quantity = none → c2.quantity = e.quantity) ∧
        (b.quantity_unit = none → c2.quantity_unit = e.quantity_unit) ∧
        c2.id = e.id ∧ c2.garden_id = e.garden_id ∧ c2.user_id = e.user_id ∧
        c2.created_at = e.created_at ∧ c2.updated_at = now := by
  intro gs e uid cid b now h1 h2
  refine ⟨applyCropPatch (cropUpdateData e b now) e,
    cropsUpdate_single gs e uid cid b now h1 h2,
    fun h => ?_, fun h => ?_, fun h => ?_, fun h => ?_, fun h => ?_, fun h => ?_,
    fun h => ?_, fun h => ?_, fun h => ?_, fun h => ?_, fun h => ?_, fun h => ?_,
    ?_, ?_, ?_, ?_, ?_⟩ <;>
    simp_all [applyCropPatch, cropUpdateData, ffTruthy]

/-- Witness for the amended C4: updating only progress leaves name and
quantity as stored and stamps updated_at. -/
theorem C4_partial_update_frame_witness :
    ∃ c2 : Crop,
      cropsUpdate ⟨[], [cropMine]⟩ 1 1
          { cropUpdNone with progress := some (.jnum 80) } "t1" =
        (⟨200, some c2⟩, ⟨[], [c2]⟩) ∧
      c2.name = cropMine.name ∧ c2.quantity = cropMine.quantity ∧
      c2.updated_at = "t1" := by
  obtain ⟨c2, heq, hf⟩ := C4_partial_update_frame [] cropMine 1 1
      { cropUpdNone with progress := some (.jnum 80) } "t1" (by decide) (by decide)
  exact ⟨c2, heq, hf.1 rfl, hf.2.2.2.2.2.2.2.2.2.2.1 rfl,
    hf.2.2.2.2.2.2.2.2.2.2.2.2.2.2.2.2⟩

/-- C5: each malformed-authentication shape gets its own 401 body from
GET /api/auth/me (missing header, non-Bearer scheme, empty token, bad
signature, expiry), the five bodies are pairwise distinct, and a token
that verifies but matches no user row gets 404. -/
theorem C5_me_error_branches :
    ∀ (secret : String) (decode : String → Option Token) (nowSec : Nat)
      (lookup : Option Json → Option DRow),
      authMe secret decode nowSec none lookup = ⟨401, meBodyNoHeader⟩ ∧
      (∀ h, strStartsWith h "Bearer " = false →
        authMe secret decode nowSec (some h) lookup = ⟨401, meBodyBadFormat⟩) ∧
      (∀ h, strStartsWith h "Bearer " = true → headerToken h = "" →
        authMe secret decode nowSec (some h) lookup = ⟨401, meBodyNoToken⟩) ∧
      (∀ h t, strStartsWith h "Bearer " = true → headerToken h ≠ "" →
        decode (headerToken h) = some t → t.sig ≠ secret →
        authMe secret decode nowSec (some h) lookup =
          ⟨401, meBodyInvalid "invalid signature"⟩) ∧
      (∀ h t, strStartsWith h "Bearer " = true → headerToken h ≠ "" →
        decode (headerToken h) = some t → t.sig = secret → t.payload.exp ≤ nowSec →
        authMe secret decode nowSec (some h) lookup = ⟨401, meBodyExpired⟩) ∧
      (∀ h t, strStartsWith h "Bearer " = true → headerToken h ≠ "" →
        decode (headerToken h) = some t → t.sig = secret → nowSec < t.payload.exp →
        lookup t.payload.idClaim = none →
        authMe secret decode nowSec (some h) lookup = ⟨404, meBodyUserMissing⟩) ∧
      List.Pairwise (fun a b => a ≠ b)
        [meBodyNoHeader, meBodyBadFormat, meBodyNoToken,
         meBodyInvalid "invalid signature", meBodyExpired] := by
  intro secret decode nowSec lookup
  refine ⟨authMe_noHeader secret decode nowSec lookup,
    fun h hs => authMe_badFormat secret decode nowSec lookup h hs,
    fun h hs ht => authMe_noToken secret decode nowSec lookup h hs ht,
    fun h t hs ht hd hsig => authMe_invalidSig secret decode nowSec lookup h t hs ht hd hsig,
    fun h t hs ht hd hsig he => authMe_expired_of secret decode nowSec lookup h t hs ht hd hsig he,
    fun h t hs ht hd hsig he hl => authMe_userMissing secret decode nowSec lookup h t hs ht hd hsig he hl,
    by decide⟩

/-- Witness for C5 at concrete headers and a concrete token decoder. -/
theorem C5_me_error_branches_witness :
    authMe "s" (fun s2 => if s2 = "bad" then some ⟨⟨none, none, none, 0, 0⟩, "x"⟩
        else if s2 = "exp" then some ⟨⟨none, none, none, 0, 5⟩, "s"⟩
        else if s2 = "ok" then some ⟨⟨some (.num 1), none, none, 0, 999999⟩, "s"⟩
        else none) 10 none (fun _ => none) = ⟨401, meBodyNoHeader⟩ ∧
    authMe "s" (fun s2 => if s2 = "bad" then some ⟨⟨none, none, none, 0, 0⟩, "x"⟩
        else if s2 = "exp" then some ⟨⟨none, none, none, 0, 5⟩, "s"⟩
        else if s2 = "ok" then some ⟨⟨some (.num 1), none, none, 0, 999999⟩, "s"⟩
        else none) 10 (some "Basic x") (fun _ => none) = ⟨401, meBodyBadFormat⟩ ∧
    authMe "s" (fun s2 => if s2 = "bad" then some ⟨⟨none, none, none, 0, 0⟩, "x"⟩
        else if s2 = "exp" then some ⟨⟨none, none, none, 0, 5⟩, "s"⟩
        else if s2 = "ok" then some ⟨⟨some (.num 1), none, none, 0, 999999⟩, "s"⟩
        else none) 10 (some "Bearer ") (fun _ => none) = ⟨401, meBodyNoToken⟩ ∧
    authMe "s" (fun s2 => if s2 = "bad" then some ⟨⟨none, none, none, 0, 0⟩, "x"⟩
        else if s2 = "exp" then some ⟨⟨none, none, none, 0, 5⟩, "s"⟩
        else if s2 = "ok" then some ⟨⟨some (.num 1), none, none, 0, 999999⟩, "s"⟩
        else none) 10 (some "Bearer bad") (fun _ => none) =
      ⟨401, meBodyInvalid "invalid signature"⟩ ∧
    authMe "s" (fun s2 => if s2 = "bad" then some ⟨⟨none, none, none, 0, 0⟩, "x"⟩
        else if s2 = "exp" then some ⟨⟨none, none, none, 0, 5⟩, "s"⟩
        else if s2 = "ok" then some ⟨⟨some (.num 1), none, none, 0, 999999⟩, "s"⟩
        else none) 10 (some "Bearer exp") (fun _ => none) = ⟨401, meBodyExpired⟩ ∧
    authMe "s" (fun s2 => if s2 = "bad" then some ⟨⟨none, none, none, 0, 0⟩, "x"⟩
        else if s2 = "exp" then some ⟨⟨none, none, none, 0, 5⟩, "s"⟩
        else if s2 = "ok" then some ⟨⟨some (.num 1), none, none, 0, 999999⟩, "s"⟩
        else none) 10 (some "Bearer ok") (fun _ => none) = ⟨404, meBodyUserMissing⟩ := by
  have hT := C5_me_error_branches "s"
    (fun s2 => if s2 = "bad" then some ⟨⟨none, none, none, 0, 0⟩, "x"⟩
      else if s2 = "exp" then some ⟨⟨none, none, none, 0, 5⟩, "s"⟩
      else if s2 = "ok" then some ⟨⟨some (.num 1), none, none, 0, 999999⟩, "s"⟩
      else none) 10 (fun _ => none)
  exact ⟨hT.1,
    hT.2.1 "Basic x" (by decide),
    hT.2.2.1 "Bearer " (by decide) (by decide),
    hT.2.2.2.1 "Bearer bad" ⟨⟨none, none, none, 0, 0⟩, "x"⟩
      (by decide) (by decide) (by decide) (by decide),
    hT.2.2.2.2.1 "Bearer exp" ⟨⟨none, none, none, 0, 5⟩, "s"⟩
      (by decide) (by decide) (by decide) rfl (by decide),
    hT.2.2.2.2.2.1 "Bearer ok" ⟨⟨some (.num 1), none, none, 0, 999999⟩, "s"⟩
      (by decide) (by decide) (by decide) rfl (by decide) rfl⟩

/-- C6: whenever login answers 200, it issued a token whose verification
with the shared secret, before the 7-day expiry, yields exactly the id,
email and name read off the user row at issuance; and any verification more
than 7 days after issuance makes GET /api/auth/me answer 401 Token expired. -/
theorem C6_login_token_roundtrip_and_expiry :
    ∀ (secret : String) (encode : Token → String) (nowSec : Nat)
      (emailv password : Option Json) (userRes : Option DRow)
      (bcompare : Json → Option Json → Bool),
      (authLogin secret encode nowSec emailv password userRes bcompare).resp.status = 200 →
      ∃ u t, userRes = some u ∧
        (authLogin secret encode nowSec emailv password userRes bcompare).token = some t ∧
        (∀ n2, n2 < nowSec + sevenDays →
          jwtVerify secret t n2 = .ok
            { idClaim := jsGet u "id", emailClaim := jsGet u "email",
              nameClaim := jsGet u "name", iat := nowSec, exp := nowSec + sevenDays }) ∧
        (∀ (n2 : Nat) (decode : String → Option Token)
           (lookup : Option Json → Option DRow) (h : String),
          nowSec + sevenDays < n2 →
          strStartsWith h "Bearer " = true → headerToken h ≠ "" →
          decode (headerToken h) = some t →
          authMe secret decode n2 (some h) lookup = ⟨401, meBodyExpired⟩) := by
  intro secret encode nowSec emailv password userRes bcompare hst
  by_cases hval : (!jsTruthy emailv || !jsTruthy password) = true
  · simp [authLogin, hval] at hst
  · simp only [Bool.not_eq_true] at hval
    cases userRes with
    | none => simp [authLogin, hval] at hst
    | some u =>
        by_cases hb : bcompare (password.getD .null) (jsGet u "password_hash") = true
        · refine ⟨u, jwtSign secret (jsGet u "id") (jsGet u "email") (jsGet u "name") nowSec,
            rfl, ?_, ?_, ?_⟩
          · simp [authLogin, hval, hb]
          · intro n2 hn2
            simp [jwtVerify, jwtSign, Nat.not_le.mpr hn2]
          · intro n2 decode lookup h hlt hs ht hd
            exact authMe_expired_of secret decode n2 lookup h _ hs ht hd rfl
              (Nat.le_of_lt hlt)
        · simp only [Bool.not_eq_true] at hb
          simp [authLogin, hval, hb] at hst

/-- Witness for C6: a concrete login, its token verified 3 seconds after
issuance, and the same token rejected as expired one second past 7 days. -/
theorem C6_login_token_roundtrip_and_expiry_witness :
    jwtVerify "s" ⟨⟨some (.num 1), some (.str "a"), some (.str "Al"), 0, 604800⟩, "s"⟩ 3 =
      .ok ⟨some (.num 1), some (.str "a"), some (.str "Al"), 0, 604800⟩ ∧
    authMe "s" (fun s2 => if s2 = "tok"
        then some ⟨⟨some (.num 1), some (.str "a"), some (.str "Al"), 0, 604800⟩, "s"⟩
        else none) 604801 (some "Bearer tok") (fun _ => none) = ⟨401, meBodyExpired⟩ := by
  obtain ⟨u, t, hu, ht, hver, hexp⟩ := C6_login_token_roundtrip_and_expiry "s"
    (fun _ => "tok") 0 (some (.str "a")) (some (.str "pw"))
    (some [("id", Json.num 1), ("email", Json.str "a"), ("name", Json.str "Al"),
           ("password_hash", Json.str "H")])
    (fun _ _ => true) (by decide)
  have hu2 := Option.some.inj hu
  have ht2 : (some (⟨⟨some (.num 1), some (.str "a"), some (.str "Al"), 0, 604800⟩,
      "s"⟩ : Token) : Option Token) = some t := by
    rw [← ht]; decide
  have ht3 := Option.some.inj ht2
  subst ht3
  subst hu2
  refine ⟨(hver 3 (by decide)).trans rfl, ?_⟩
  exact hexp 604801 _ (fun _ => none) "Bearer tok" (by decide) (by decide)
    (by decide) (by decide)

/-- C7: the two authentication-failure causes of login, unknown email
(store reports no row) and wrong password (digest comparison fails), both
produce the identical 401 Invalid credentials response. -/
theorem C7_login_failures_indistinguishable :
    ∀ (secret : String) (encode : Token → String) (nowSec : Nat)
      (emailv password : Option Json) (userRes : Option DRow)
      (bcompare : Json → Option Json → Bool),
      jsTruthy emailv = true → jsTruthy password = true →
      (userRes = none →
        (authLogin secret encode nowSec emailv password userRes bcompare).resp =
          ⟨401, invalidCredBody⟩) ∧
      (∀ u, userRes = some u →
        bcompare (password.getD .null) (jsGet u "password_hash") = false →
        (authLogin secret encode nowSec emailv password userRes bcompare).resp =
          ⟨401, invalidCredBody⟩) := by
  intro secret encode nowSec emailv password userRes bcompare he hp
  constructor
  · intro hn
    subst hn
    simp [authLogin, he, hp]
  · intro u hu hb
    subst hu
    simp [authLogin, he, hp, hb]

/-- Witness for C7: unknown email and wrong password at concrete inputs
produce the same response value. -/
theorem C7_login_failures_indistinguishable_witness :
    (authLogin "s" (fun _ => "tok") 0 (some (.str "a")) (some (.str "p")) none
      (fun _ _ => true)).resp = ⟨401, invalidCredBody⟩ ∧
    (authLogin "s" (fun _ => "tok") 0 (some (.str "a")) (some (.str "p"))
      (some [("id", Json.num 1), ("password_hash", Json.str "H")])
      (fun _ _ => false)).resp = ⟨401, invalidCredBody⟩ := by
  refine ⟨(C7_login_failures_indistinguishable "s" (fun _ => "tok") 0 (some (.str "a"))
      (some (.str "p")) none (fun _ _ => true) (by decide) (by decide)).1 rfl, ?_⟩
  exact (C7_login_failures_indistinguishable "s" (fun _ => "tok") 0 (some (.str "a"))
      (some (.str "p")) (some [("id", Json.num 1), ("password_hash", Json.str "H")])
      (fun _ _ => false) (by decide) (by decide)).2 _ rfl rfl

/-- C8: crop creation rejects a garden_id the requester does not own with a
404 and no insert; crop update never changes any garden_id or user_id (nor
any garden row); hence the crop-to-garden ownership invariant is preserved
by every sequence of crop create / update requests. -/
theorem C8_crop_garden_ownership :
    (∀ (db : DB) (uid : Nat) (b : CropBody) (now : String),
      jsTruthyV b.name = true → natIdTruthy b.garden_id = true →
      singleQ db.gardens (fun g => g.id == b.garden_id.getD 0 && g.user_id == uid) = none →
      cropsCreate db uid b now = (⟨404, none⟩, db)) ∧
    (∀ (db : DB) (uid cid : Nat) (b : CropUpd) (now : String),
      (cropsUpdate db uid cid b now).2.gardens = db.gardens ∧
      (cropsUpdate db uid cid b now).2.crops.map (fun c => (c.garden_id, c.user_id)) =
        db.crops.map (fun c => (c.garden_id, c.user_id))) ∧
    (∀ db db2, cropGardenInv db → CropReach db db2 → cropGardenInv db2) := by
  refine ⟨?_, ?_, ?_⟩
  · intro db uid b now hn hg hq
    unfold cropsCreate
    simp [hn, hg, hq]
  · intro db uid cid b now
    unfold cropsUpdate
    cases hq : singleQ db.crops (fun c => c.id == cid && c.user_id == uid) with
    | none => exact ⟨rfl, rfl⟩
    | some e =>
        dsimp only
        have hmap : (db.crops.map fun c =>
            if c.id == cid then applyCropPatch (cropUpdateData e b now) c else c).map
              (fun c => (c.garden_id, c.user_id)) =
            db.crops.map (fun c => (c.garden_id, c.user_id)) := by
          rw [List.map_map]
          apply List.map_congr_left
          intro c _
          by_cases hid : c.id = cid <;> simp [applyCropPatch, beq_iff_eq, hid]
        constructor
        · cases singleQ (db.crops.map fun c =>
              if c.id == cid then applyCropPatch (cropUpdateData e b now) c else c)
              (fun c => c.id == cid) <;> rfl
        · cases singleQ (db.crops.map fun c =>
              if c.id == cid then applyCropPatch (cropUpdateData e b now) c else c)
              (fun c => c.id == cid) <;> exact hmap
  · intro db db2 hinv hr
    induction hr with
    | refl => exact hinv
    | tail hab hstep ih =>
        rename_i dbm dbn
        cases hstep with
        | create uid b now =>
            unfold cropsCreate
            split
            · exact ih
            · dsimp only
              cases hq : singleQ dbm.gardens
                  (fun g => g.id == b.garden_id.getD 0 && g.user_id == uid) with
              | none => exact ih
              | some g =>
                  dsimp only
                  intro c hc
                  rcases List.mem_append.mp hc with hold | hnew
                  · exact ih c hold
                  · have hcc : c = cropData uid (b.garden_id.getD 0) b now
                        (nextCropId dbm) := by simpa using hnew
                    obtain ⟨hmem, hpred⟩ := singleQ_some hq
                    simp only [Bool.and_eq_true, beq_iff_eq] at hpred
                    refine ⟨g, hmem, ?_, ?_⟩
                    · rw [hcc]
                      simpa [cropData] using hpred.1
                    · rw [hcc]
                      simpa [cropData] using hpred.2
        | update uid cid b now =>
            unfold cropsUpdate
            cases hq : singleQ dbm.crops (fun c => c.id == cid && c.user_id == uid) with
            | none => exact ih
            | some e =>
                dsimp only
                have key : ∀ c ∈ (dbm.crops.map fun c =>
                    if c.id == cid then applyCropPatch (cropUpdateData e b now) c else c),
                    ∃ g ∈ dbm.gardens, g.id = c.garden_id ∧ g.user_id = c.user_id := by
                  intro c hc
                  rcases List.mem_map.mp hc with ⟨c0, hc0, he⟩
                  obtain ⟨g0, hg0, h1, h2⟩ := ih c0 hc0
                  refine ⟨g0, hg0, ?_, ?_⟩
                  · rw [← he]
                    by_cases hid : c0.id = cid <;>
                      simp [applyCropPatch, beq_iff_eq, hid, h1]
                  · rw [← he]
                    by_cases hid : c0.id = cid <;>
                      simp [applyCropPatch, beq_iff_eq, hid, h2]
                cases singleQ (dbm.crops.map fun c =>
                    if c.id == cid then applyCropPatch (cropUpdateData e b now) c else c)
                    (fun c => c.id == cid) <;> exact key

/-- Witness for C8: a create against a foreign garden id is rejected with
nothing inserted, and the invariant survives a concrete create followed by
an update. -/
theorem C8_crop_garden_ownership_witness :
    (cropsCreate ⟨[gardenMine], []⟩ 1
        { cropBodyNone with name := some (.jstr "T"), garden_id := some 9 } "t1" =
      (⟨404, none⟩, ⟨[gardenMine], []⟩)) ∧
    cropGardenInv
      (cropsUpdate
        (cropsCreate ⟨[gardenMine], []⟩ 1
          { cropBodyNone with name := some (.jstr "T"), garden_id := some 1 } "t1").2
        1 1 { cropUpdNone with progress := some (.jnum 80) } "t2").2 := by
  have h := C8_crop_garden_ownership
  refine ⟨h.1 _ 1 _ "t1" (by decide) (by decide) (by decide), ?_⟩
  refine h.2.2 ⟨[gardenMine], []⟩ _ (by decide) ?_
  exact CropReach.tail (CropReach.tail (CropReach.refl _)
    (CropStep.create _ 1 _ "t1")) (CropStep.update _ 1 1 _ "t2")

/-- C9 counterexample: no range check exists, so a create request
supplying progress 150 stores 150, outside 0..100. -/
theorem C9_progress_range_counterexample :
    ¬ (∀ (db : DB) (uid : Nat) (b : CropBody) (now : String) (c : Crop),
        (cropsCreate db uid b now).1.payload = some c →
        progressInRangeB c.progress = true) := by
  intro hcl
  have h2 := hcl ⟨[gardenMine], []⟩ 1
      { cropBodyNone with
        name := some (.jstr "T"), garden_id := some 1,
        progress := some (.jnum 150) } "t"
      (cropData 1 1
        { cropBodyNone with
          name := some (.jstr "T"), garden_id := some 1,
          progress := some (.jnum 150) } "t" 1)
      (by decide)
  exact absurd h2 (by decide)

/-- C9 amended: the handlers pass progress through unvalidated. A created
crop stores the supplied progress when truthy and 0 otherwise; an updated
crop stores any defined supplied progress and keeps the stored one only
when the field is undefined. No 0..100 bound is enforced. -/
theorem C9_progress_passthrough :
    (∀ (db : DB) (uid : Nat) (b : CropBody) (now : String) (c : Crop),
      (cropsCreate db uid b now).1.payload = some c →
      c.progress = ffTruthy b.progress (.jnum 0)) ∧
    (∀ (gs : List Garden) (e : Crop) (uid cid : Nat) (b : CropUpd) (now : String),
      e.id = cid → e.user_id = uid →
      ∃ c2, cropsUpdate ⟨gs, [e]⟩ uid cid b now = (⟨200, some c2⟩, ⟨gs, [c2]⟩) ∧
        c2.progress = b.progress.getD e.progress) := by
  constructor
  · intro db uid b now c hc
    unfold cropsCreate at hc
    split at hc
    · exact absurd hc (by simp)
    · dsimp only at hc
      split at hc
      · exact absurd hc (by simp)
      · have h3 := Option.some.inj hc
        subst h3
        rfl
  · intro gs e uid cid b now h1 h2
    exact ⟨applyCropPatch (cropUpdateData e b now) e,
      cropsUpdate_single gs e uid cid b now h1 h2, rfl⟩

/-- Witness for the amended C9: progress 150 is stored as is at create and
at update. -/
theorem C9_progress_passthrough_witness :
    ((cropData 1 1
        { cropBodyNone with
          name := some (.jstr "T"), garden_id := some 1,
          progress := some (.jnum 150) } "t" 1).progress =
      ffTruthy (some (.jnum 150)) (.jnum 0)) ∧
    (∃ c2, cropsUpdate ⟨[], [cropMine]⟩ 1 1
        { cropUpdNone with progress := some (.jnum 150) } "t1" =
        (⟨200, some c2⟩, ⟨[], [c2]⟩) ∧
      c2.progress = (some (.jnum 150)).getD cropMine.progress) := by
  refine ⟨C9_progress_passthrough.1 ⟨[gardenMine], []⟩ 1
      { cropBodyNone with
        name := some (.jstr "T"), garden_id := some 1,
        progress := some (.jnum 150) } "t" _ (by decide), ?_⟩
  exact C9_progress_passthrough.2 [] cropMine 1 1
    { cropUpdNone with progress := some (.jnum 150) } "t1" (by decide) (by decide)

/-- C10: at create, each falsy supplied optional field is replaced by its
default before insertion (quantity 0 becomes 1, falsy progress becomes 0,
empty category becomes vegetable, empty status becomes seedling, falsy
is_shared becomes false), and the response crop is the inserted row, with
the substituted values. -/
theorem C10_create_falsy_defaults :
    ∀ (db : DB) (uid : Nat) (b : CropBody) (now : String) (c : Crop),
      (cropsCreate db uid b now).1.payload = some c →
      (b.quantity = some (.jnum 0) → c.quantity = .jnum 1) ∧
      (∀ v, b.progress = some v → v.truthy = false → c.progress = .jnum 0) ∧
      (b.category = some (.jstr "") → c.category = .jstr "vegetable") ∧
      (b.status = some (.jstr "") → c.status = .jstr "seedling") ∧
      (∀ v, b.is_shared = some v → v.truthy = false → c.is_shared = .jbool false) ∧
      c ∈ (cropsCreate db uid b now).2.crops := by
  intro db uid b now c hc
  unfold cropsCreate at hc ⊢
  split at hc
  · exact absurd hc (by simp)
  · dsimp only at hc
    rename_i hguard
    split at hc
    · exact absurd hc (by simp)
    · rename_i g heq
      have h3 := Option.some.inj hc
      subst h3
      refine ⟨?_, ?_, ?_, ?_, ?_, ?_⟩
      · intro hq
        simp [cropData, hq, ffTruthy, JVal.truthy]
      · intro v hv hf
        simp [cropData, hv, ffTruthy, hf]
      · intro hq
        simp [cropData, hq, ffTruthy, JVal.truthy]
      · intro hq
        simp [cropData, hq, ffTruthy, JVal.truthy]
      · intro v hv hf
        simp [cropData, hv, ffTruthy, hf]
      · rw [if_neg hguard]
        dsimp only
        rw [heq]
        simp

/-- Witness for C10 at a create request whose optional fields are all
supplied but falsy. -/
theorem C10_create_falsy_defaults_witness :
    ∃ c, (cropsCreate ⟨[gardenMine], []⟩ 1
        { cropBodyNone with
          name := some (.jstr "T"), garden_id := some 1,
          quantity := some (.jnum 0), progress := some (.jnum 0),
          category := some (.jstr ""), status := some (.jstr ""),
          is_shared := some (.jbool false) } "t").1.payload = some c ∧
      c.quantity = .jnum 1 ∧ c.progress = .jnum 0 ∧ c.category = .jstr "vegetable" ∧
      c.status = .jstr "seedling" ∧ c.is_shared = .jbool false := by
  have h := C10_create_falsy_defaults ⟨[gardenMine], []⟩ 1
      { cropBodyNone with
        name := some (.jstr "T"), garden_id := some 1,
        quantity := some (.jnum 0), progress := some (.jnum 0),
        category := some (.jstr ""), status := some (.jstr ""),
        is_shared := some (.jbool false) } "t"
      (cropData 1 1
        { cropBodyNone with
          name := some (.jstr "T"), garden_id := some 1,
          quantity := some (.jnum 0), progress := some (.jnum 0),
          category := some (.jstr ""), status := some (.jstr ""),
          is_shared := some (.jbool false) } "t" 1)
      (by decide)
  exact ⟨_, by decide, h.1 rfl, h.2.1 (.jnum 0) rfl (by decide), h.2.2.1 rfl,
    h.2.2.2.1 rfl, h.2.2.2.2.1 (.jbool false) rfl (by decide)⟩
